import Mathlib

/-!
Verification of the FinWise budget and alert engine (models/budget.go,
models/category.go, models/db.go, controllers/budget.go) against its
natural-language specification.

Shallow embedding conventions:
* the MySQL database is a structure of lists of rows (`DB`);
* `float64` monetary amounts are modelled as exact rationals (`ℚ`);
* `DATE` values are `Date` triples compared chronologically, months stored
  with year+month granularity (the code always stores the first day of the
  month in the `month` column, via `time.Parse("2006-01", ...)`);
* SQL joins on the `id` primary key are realised with `List.find?`; primary
  key uniqueness is carried as an explicit `Nodup` hypothesis where needed;
* Go `errors.New` values are tagged with the spec's error taxonomy
  (`Err.validation` / `Err.conflict` / `Err.notFound`), while errors
  propagated verbatim from `database/sql` (e.g. `sql.ErrNoRows`, MySQL
  duplicate-key errors) are tagged `Err.db`;
* wall-clock time (`time.Now()` inside `CheckBudgetAlerts`) is modelled as
  an explicit `currentMonth` parameter;
* fallible storage statements inside the `DeleteBudget` transaction are
  modelled with explicit failure flags, and rollback restores the input
  state.
-/

namespace FinWise

/-- Calendar month with year+month granularity, as stored in the
`budgets.month` DATE column (always the first of the month). -/
structure Month where
  year : Nat
  mon : Nat
  deriving DecidableEq, Repr

/-- Calendar date, as stored in the `bills.date` DATE column. -/
structure Date where
  year : Nat
  mon : Nat
  day : Nat
  deriving DecidableEq, Repr

/-- Chronological order on DATE values (MySQL `date BETWEEN ? AND ?` compares
chronologically). -/
def dateLeB (a b : Date) : Bool :=
  a.year < b.year ||
    (a.year == b.year &&
      (a.mon < b.mon || (a.mon == b.mon && a.day ≤ b.day)))

/-- Gregorian leap year test, as in Go's `time` package. -/
def isLeapYear (y : Nat) : Bool :=
  (y % 4 == 0 && y % 100 != 0) || y % 400 == 0

/-- Number of days in a month, as in Go's `time` package. -/
def daysInMonth (y m : Nat) : Nat :=
  if m = 2 then (if isLeapYear y then 29 else 28)
  else if m = 4 ∨ m = 6 ∨ m = 9 ∨ m = 11 then 30
  else 31

/-- Successor month: `startDate.AddDate(0, 1, 0)` applied to the first of a
month lands on the first of this month. -/
def nextMonth (mo : Month) : Month :=
  if mo.mon = 12 then ⟨mo.year + 1, 1⟩ else ⟨mo.year, mo.mon + 1⟩

/-- First day of a month (`time.Parse("2006-01", ...)` yields midnight of
this date). -/
def monthStartDate (mo : Month) : Date :=
  ⟨mo.year, mo.mon, 1⟩

/-- Date part of `t.Add(-time.Second)` when `t` is midnight of day `d`:
the previous calendar day. -/
def prevDay (d : Date) : Date :=
  if 1 < d.day then ⟨d.year, d.mon, d.day - 1⟩
  else if 1 < d.mon then ⟨d.year, d.mon - 1, daysInMonth d.year (d.mon - 1)⟩
  else ⟨d.year - 1, 12, 31⟩

/-- The `endDate` used by GetBudget / GetBudgets:
`startDate.AddDate(0, 1, 0).Add(-time.Second)` formatted as a date. -/
def budgetEndDate (mo : Month) : Date :=
  prevDay (monthStartDate (nextMonth mo))

/-- Row of the `categories` table. -/
structure Category where
  id : Nat
  userId : Nat
  name : String
  ctype : String
  deriving DecidableEq, Repr

/-- Row of the `bills` table (fields relevant to the budget engine). -/
structure Bill where
  id : Nat
  userId : Nat
  categoryId : Nat
  amount : ℚ
  btype : String
  date : Date
  deriving DecidableEq, Repr

/-- Row of the `budgets` table; `categoryId = none` is a NULL `category_id`
(a "total" budget). -/
structure BudgetRow where
  id : Nat
  userId : Nat
  categoryId : Option Nat
  amount : ℚ
  month : Month
  deriving DecidableEq, Repr

/-- Row of the `budget_alerts` table. -/
structure AlertRow where
  id : Nat
  userId : Nat
  budgetId : Nat
  threshold : Int
  isActive : Bool
  deriving DecidableEq, Repr

/-- The database state visible to the budget engine. -/
structure DB where
  categories : List Category
  bills : List Bill
  budgets : List BudgetRow
  alerts : List AlertRow
  deriving DecidableEq, Repr

/-- Error taxonomy; each `errors.New` in the Go source is tagged with the
class the spec (§7) assigns to its message, and errors propagated verbatim
from `database/sql` / MySQL are `Err.db`. -/
inductive Err where
  | notFound (msg : String)
  | validation (msg : String)
  | conflict (msg : String)
  | db (msg : String)
  deriving DecidableEq, Repr

deriving instance DecidableEq for Except

/-- The in-memory `models.Budget` struct produced by scanning a budgets row
and enriching it (`CategoryID` is `0` when the column is NULL, matching the
`sql.NullInt64` scan). -/
structure Budget where
  id : Nat
  userId : Nat
  categoryId : Nat
  amount : ℚ
  month : Month
  usedAmount : ℚ
  percentage : ℚ
  deriving DecidableEq, Repr

/-- `models.BudgetRequest` with the month already parsed
(`time.Parse("2006-01", req.Month)`; the parse-failure path is input
validation outside the properties considered here). `categoryId = 0`
means "no category" (total budget), as in the Go struct. -/
structure BudgetRequest where
  categoryId : Nat
  amount : ℚ
  month : Month
  deriving DecidableEq, Repr

/-- `models.BudgetAlertRequest`. -/
structure AlertRequest where
  budgetId : Nat
  threshold : Int
  isActive : Bool
  deriving DecidableEq, Repr

/-- The `COALESCE(SUM(amount), 0) FROM bills` query shared by GetBudget and
GetBudgets: expense bills of the user in the date range, filtered by
category when `catId > 0` (i.e. when the scanned `budget.CategoryID > 0`). -/
def usedAmountQuery (db : DB) (userId catId : Nat) (s e : Date) : ℚ :=
  ((db.bills.filter (fun bill =>
      bill.userId == userId &&
      (if 0 < catId then bill.categoryId == catId else true) &&
      bill.btype == "expense" &&
      dateLeB s bill.date && dateLeB bill.date e)).map (fun b => b.amount)).sum

/-- Scan of a budgets row plus the enrichment performed by GetBudget /
GetBudgets: `UsedAmount` from `usedAmountQuery` over the month's inclusive
date range, and `Percentage` set only when `Amount > 0` (zero-valued
otherwise, the Go zero value). -/
def computeBudget (db : DB) (userId : Nat) (br : BudgetRow) : Budget :=
  let catId := br.categoryId.getD 0
  let s := monthStartDate br.month
  let e := budgetEndDate br.month
  let used := usedAmountQuery db userId catId s e
  { id := br.id, userId := br.userId, categoryId := catId,
    amount := br.amount, month := br.month, usedAmount := used,
    percentage := if 0 < br.amount then used / br.amount * 100 else 0 }

/-- `models.GetBudget`: `SELECT ... FROM budgets b ... WHERE b.id = ? AND
b.user_id = ?`, then enrichment. -/
def getBudget (db : DB) (id userId : Nat) : Except Err Budget :=
  match db.budgets.find? (fun b => b.id == id && b.userId == userId) with
  | none => .error (.notFound "预算不存在")
  | some br => .ok (computeBudget db userId br)

/-- `models.GetBudgets`: all of the user's budgets whose `month` formats to
the requested `YYYY-MM`, each enriched exactly as in GetBudget. -/
def getBudgets (db : DB) (userId : Nat) (month : Month) : List Budget :=
  (db.budgets.filter (fun b => b.userId == userId && decide (b.month = month))).map
    (computeBudget db userId)

/-- The first budgets row with a given primary key (`JOIN budgets b ON
ba.budget_id = b.id`). -/
def budgetRowFor (db : DB) (budgetId : Nat) : Option BudgetRow :=
  db.budgets.find? (fun b => b.id == budgetId)

/-- One triggered-alert record emitted by CheckBudgetAlerts (the
`map[string]interface{}` in the Go source, with the category fields folded
into options). -/
structure TriggeredAlert where
  alertId : Nat
  budgetId : Nat
  threshold : Int
  usedPercent : ℚ
  usedAmount : ℚ
  budgetAmount : ℚ
  categoryId : Option Nat
  budgetType : String
  deriving DecidableEq, Repr

/-- Processing of a single alert row inside `models.CheckBudgetAlerts`:
the SQL filter (`ba.user_id = ? AND ba.is_active = 1` joined to a budgets
row with `DATE_FORMAT(b.month, '%Y-%m')` equal to the current month), then
the lookup of the matching enriched budget in the GetBudgets result
(skipped silently when absent), then the non-strict threshold comparison
`usedPercentage >= float64(threshold)`. -/
def processAlert (db : DB) (userId : Nat) (cm : Month) (a : AlertRow) :
    Option TriggeredAlert :=
  if a.userId == userId && a.isActive then
    match budgetRowFor db a.budgetId with
    | none => none
    | some br =>
      if br.month = cm then
        match (getBudgets db userId cm).find? (fun b => b.id == a.budgetId) with
        | none => none
        | some mb =>
          if (a.threshold : ℚ) ≤ mb.percentage then
            some { alertId := a.id, budgetId := a.budgetId,
                   threshold := a.threshold, usedPercent := mb.percentage,
                   usedAmount := mb.usedAmount, budgetAmount := br.amount,
                   categoryId := br.categoryId,
                   budgetType := if br.categoryId.isSome then "category" else "total" }
          else none
      else none
  else none

/-- `models.CheckBudgetAlerts`, with `time.Now()` abstracted into the
`cm` (current month) parameter.  Always returns a list: the scan loop has
no failing path in the pure model. -/
def checkBudgetAlerts (db : DB) (userId : Nat) (cm : Month) : List TriggeredAlert :=
  db.alerts.filterMap (processAlert db userId cm)

/-- The category check shared by CreateBudget and UpdateBudget:
`SELECT EXISTS(SELECT 1 FROM categories WHERE id = ? AND user_id = ?), type
FROM categories WHERE id = ?`.  When no categories row has the given id the
outer query yields no rows and `Scan` returns `sql.ErrNoRows`, which the Go
code propagates verbatim. -/
def checkCategoryForBudget (db : DB) (categoryId userId : Nat) : Except Err Unit :=
  match db.categories.find? (fun c => c.id == categoryId) with
  | none => .error (.db "sql: no rows in result set")
  | some c =>
    if db.categories.any (fun c2 => c2.id == categoryId && c2.userId == userId) then
      if c.ctype == "expense" then .ok ()
      else .error (.validation "只能为支出分类设置预算")
    else .error (.validation "分类不存在或不属于当前用户")

/-- Fresh AUTO_INCREMENT primary key for the budgets table. -/
def nextBudgetId (db : DB) : Nat :=
  (db.budgets.map (fun b => b.id)).foldr max 0 + 1

/-- Fresh AUTO_INCREMENT primary key for the budget_alerts table. -/
def nextAlertId (db : DB) : Nat :=
  (db.alerts.map (fun a => a.id)).foldr max 0 + 1

/-- MySQL `UNIQUE KEY unique_budget (user_id, category_id, month)` check for
a row being inserted or updated, against the other rows of the table.
Following MySQL semantics, rows with a NULL `category_id` never collide. -/
def mysqlBudgetKeyConflict (others : List BudgetRow) (r : BudgetRow) : Bool :=
  match r.categoryId with
  | none => false
  | some c => others.any (fun b =>
      b.userId == r.userId && decide (b.categoryId = some c) && decide (b.month = r.month))

/-- `models.CreateBudget`: category existence/ownership/type check when a
category is given, slot-occupancy check (`COUNT(*) ... DATE_FORMAT(month,
'%Y-%m') = ?`), then INSERT (subject to the MySQL unique key) and a final
GetBudget on the new row.  Returns the result together with the resulting
database state. -/
def createBudget (db : DB) (userId : Nat) (req : BudgetRequest) :
    Except Err Budget × DB :=
  match
    ((if 0 < req.categoryId then
      match checkCategoryForBudget db req.categoryId userId with
      | .error e => .error e
      | .ok _ =>
        if 0 < db.budgets.countP (fun b =>
            b.userId == userId && decide (b.categoryId = some req.categoryId) &&
            decide (b.month = req.month)) then
          .error (.conflict "该分类在当月已有预算设置")
        else .ok ()
    else
      if 0 < db.budgets.countP (fun b =>
          b.userId == userId && decide (b.categoryId = (none : Option Nat)) &&
          decide (b.month = req.month)) then
        .error (.conflict "当月已有总预算设置")
      else .ok ()) : Except Err Unit) with
  | .error e => (.error e, db)
  | .ok _ =>
    let row : BudgetRow :=
      { id := nextBudgetId db, userId := userId,
        categoryId := if 0 < req.categoryId then some req.categoryId else none,
        amount := req.amount, month := req.month }
    if mysqlBudgetKeyConflict db.budgets row then
      (.error (.db "Duplicate entry"), db)
    else
      let db' : DB := { db with budgets := db.budgets ++ [row] }
      match getBudget db' row.id userId with
      | .error e => (.error e, db')
      | .ok b => (.ok b, db')

/-- `models.UpdateBudget`: fetches the budget, re-runs the category and
slot checks ONLY when the scanned `budget.CategoryID` differs from
`req.CategoryID`, then UPDATEs the row (subject to the MySQL unique key)
and returns a fresh GetBudget. -/
def updateBudget (db : DB) (id userId : Nat) (req : BudgetRequest) :
    Except Err Budget × DB :=
  match getBudget db id userId with
  | .error e => (.error e, db)
  | .ok budget =>
    match
      ((if budget.categoryId ≠ req.categoryId then
        if 0 < req.categoryId then
          match checkCategoryForBudget db req.categoryId userId with
          | .error e => .error e
          | .ok _ =>
            if 0 < db.budgets.countP (fun b =>
                b.userId == userId && decide (b.categoryId = some req.categoryId) &&
                decide (b.month = req.month) && b.id != id) then
              .error (.conflict "该分类在当月已有预算设置")
            else .ok ()
        else
          if 0 < db.budgets.countP (fun b =>
              b.userId == userId && decide (b.categoryId = (none : Option Nat)) &&
              decide (b.month = req.month) && b.id != id) then
            .error (.conflict "当月已有总预算设置")
          else .ok ()
      else .ok ()) : Except Err Unit) with
    | .error e => (.error e, db)
    | .ok _ =>
      let target : BudgetRow :=
        { id := id, userId := userId,
          categoryId := if 0 < req.categoryId then some req.categoryId else none,
          amount := req.amount, month := req.month }
      let updated := db.budgets.map (fun b =>
        if b.id == id && b.userId == userId then
          { b with categoryId := target.categoryId, amount := req.amount,
                   month := req.month }
        else b)
      if mysqlBudgetKeyConflict
          (db.budgets.filter (fun b => !(b.id == id && b.userId == userId))) target then
        (.error (.db "Duplicate entry"), db)
      else
        let db' : DB := { db with budgets := updated }
        match getBudget db' id userId with
        | .error e => (.error e, db')
        | .ok b => (.ok b, db')

/-- `models.DeleteBudget`: GetBudget ownership check, then a transaction
deleting the budget's alerts (`DELETE FROM budget_alerts WHERE budget_id =
?`) and the budget row (`DELETE FROM budgets WHERE id = ? AND user_id =
?`).  `failAlerts` / `failBudget` / `failCommit` model storage failures of
the two DELETE statements and of COMMIT; on any failure the transaction is
rolled back (or never committed), so the input state is returned. -/
def deleteBudget (db : DB) (id userId : Nat)
    (failAlerts failBudget failCommit : Bool) : Except Err Unit × DB :=
  match getBudget db id userId with
  | .error e => (.error e, db)
  | .ok _ =>
    if failAlerts then (.error (.db "Error deleting budget alerts"), db)
    else if failBudget then (.error (.db "Error deleting budget"), db)
    else if failCommit then (.error (.db "Error committing transaction"), db)
    else
      (.ok (),
       { db with
         alerts := db.alerts.filter (fun a => !(a.budgetId == id)),
         budgets := db.budgets.filter (fun b => !(b.id == id && b.userId == userId)) })

/-- `models.CreateBudgetAlert`, instrumented with the number of persistence
round-trips executed before returning (GetBudget's lookup of the budgets
row, GetBudget's bills-sum query, the duplicate-threshold COUNT, the
INSERT).  The GetBudget call is inlined so the count is visible; its
enriched result is discarded by the Go code as well.  The Go message
`已存在相同阈值(%d%%)的告警` is modelled without the interpolated number. -/
def createBudgetAlert (db : DB) (userId : Nat) (req : AlertRequest) :
    Except Err AlertRow × DB × Nat :=
  match db.budgets.find? (fun b => b.id == req.budgetId && b.userId == userId) with
  | none => (.error (.notFound "预算不存在"), db, 1)
  | some _ =>
    if req.threshold < 1 || 100 < req.threshold then
      (.error (.validation "阈值必须在1-100之间"), db, 2)
    else if 0 < db.alerts.countP (fun a =>
        a.budgetId == req.budgetId && a.threshold == req.threshold) then
      (.error (.conflict "已存在相同阈值的告警"), db, 3)
    else
      let row : AlertRow :=
        { id := nextAlertId db, userId := userId, budgetId := req.budgetId,
          threshold := req.threshold, isActive := req.isActive }
      (.ok row, { db with alerts := db.alerts ++ [row] }, 4)

/-- `models.GetBudgetAlerts`: the user's alerts, optionally restricted to
one budget (`budgetID > 0`); the `ORDER BY threshold` clause is irrelevant
to the properties below and is not modelled. -/
def getBudgetAlerts (db : DB) (userId budgetId : Nat) : List AlertRow :=
  db.alerts.filter (fun a =>
    a.userId == userId && (if 0 < budgetId then a.budgetId == budgetId else true))

/-- `models.UpdateBudgetAlert`: existence check (`WHERE id = ? AND user_id
= ?`), ownership check of the target budget via GetBudget, threshold range
check, duplicate-threshold check excluding this alert, UPDATE, and a final
re-fetch by id alone. -/
def updateBudgetAlert (db : DB) (id userId : Nat) (req : AlertRequest) :
    Except Err AlertRow × DB :=
  if !(db.alerts.any (fun a => a.id == id && a.userId == userId)) then
    (.error (.notFound "预算告警不存在"), db)
  else
    match getBudget db req.budgetId userId with
    | .error e => (.error e, db)
    | .ok _ =>
      if req.threshold < 1 || 100 < req.threshold then
        (.error (.validation "阈值必须在1-100之间"), db)
      else if 0 < db.alerts.countP (fun a =>
          a.budgetId == req.budgetId && a.threshold == req.threshold && a.id != id) then
        (.error (.conflict "已存在相同阈值的告警"), db)
      else
        let db' : DB := { db with alerts := db.alerts.map (fun a =>
          if a.id == id && a.userId == userId then
            { a with budgetId := req.budgetId, threshold := req.threshold,
                     isActive := req.isActive }
          else a) }
        match db'.alerts.find? (fun a => a.id == id) with
        | none => (.error (.db "sql: no rows in result set"), db')
        | some a => (.ok a, db')

/-- `models.DeleteBudgetAlert`: existence check, then `DELETE FROM
budget_alerts WHERE id = ? AND user_id = ?`. -/
def deleteBudgetAlert (db : DB) (id userId : Nat) : Except Err Unit × DB :=
  if !(db.alerts.any (fun a => a.id == id && a.userId == userId)) then
    (.error (.notFound "预算告警不存在"), db)
  else
    (.ok (),
     { db with alerts := db.alerts.filter (fun a => !(a.id == id && a.userId == userId)) })

/-- Spec-side restatement of the UsedAmount derivation (§3, §4.1): the sum
of the user's expense bills dated within the inclusive range from the
first day to the last day of the budget's month, restricted to the
budget's category when the budget is category-scoped.  Written from the
spec's words, independently of the `AddDate(0,1,0).Add(-time.Second)`
end-date computation of the source, for comparison with `computeBudget`. -/
def specMonthExpenseSum (db : DB) (userId : Nat) (br : BudgetRow) : ℚ :=
  ((db.bills.filter (fun bill =>
      bill.userId == userId &&
      (match br.categoryId with
       | some c => bill.categoryId == c
       | none => true) &&
      bill.btype == "expense" &&
      dateLeB ⟨br.month.year, br.month.mon, 1⟩ bill.date &&
      dateLeB bill.date
        ⟨br.month.year, br.month.mon, daysInMonth br.month.year br.month.mon⟩)).map
    (fun b => b.amount)).sum

/-- The user's budget rows (for the isolation statements). -/
def budgetsOf (db : DB) (v : Nat) : List BudgetRow :=
  db.budgets.filter (fun b => b.userId == v)

/-- The user's alert rows (for the isolation statements). -/
def alertsOf (db : DB) (v : Nat) : List AlertRow :=
  db.alerts.filter (fun a => a.userId == v)

/-- Database consistency produced by the schema and the API itself:
primary keys of budgets and alerts are unique, and every alert is owned by
the owner of the budget it references (CreateBudgetAlert and
UpdateBudgetAlert both verify the referenced budget through
`GetBudget(req.BudgetID, userID)`). -/
def Consistent (db : DB) : Prop :=
  (db.budgets.map (fun b => b.id)).Nodup ∧
  (db.alerts.map (fun a => a.id)).Nodup ∧
  ∀ a ∈ db.alerts, ∀ b ∈ db.budgets, b.id = a.budgetId → b.userId = a.userId

instance (db : DB) : Decidable (Consistent db) := by
  unfold Consistent; infer_instance

/-- Whether a budget-returning operation succeeded. -/
def exceptOkB : Except Err Budget → Bool
  | .ok _ => true
  | .error _ => false

/-- Number of budget rows occupying a (user, category-or-null, month)
slot. -/
def slotCount (db : DB) (userId : Nat) (cat : Option Nat) (mo : Month) : Nat :=
  db.budgets.countP (fun b =>
    b.userId == userId && decide (b.categoryId = cat) && decide (b.month = mo))

/-- Concrete state: user 1 owns two total budgets (NULL category), one for
2024-03 and one for 2024-04. -/
def dbSlot : DB :=
  { categories := [], bills := [],
    budgets :=
      [ { id := 1, userId := 1, categoryId := none, amount := 1000, month := ⟨2024, 3⟩ },
        { id := 2, userId := 1, categoryId := none, amount := 800, month := ⟨2024, 4⟩ } ],
    alerts := [] }

/-- Request moving a budget to 2024-04 while keeping the null category. -/
def reqSlot : BudgetRequest := { categoryId := 0, amount := 500, month := ⟨2024, 4⟩ }

/-- Concrete state: user 1 owns budget 1 with no alerts. -/
def dbAlert : DB :=
  { categories := [], bills := [],
    budgets :=
      [ { id := 1, userId := 1, categoryId := none, amount := 1000, month := ⟨2024, 3⟩ } ],
    alerts := [] }

/-- Concrete state: user 1 owns an expense category 3 and an income
category 4; user 2 owns expense category 5; no category with id 7 exists. -/
def dbCat : DB :=
  { categories :=
      [ { id := 3, userId := 1, name := "Food", ctype := "expense" },
        { id := 4, userId := 1, name := "Salary", ctype := "income" },
        { id := 5, userId := 2, name := "Shopping", ctype := "expense" } ],
    bills := [], budgets := [], alerts := [] }

/-- Concrete state for alert checking: user 1 has a 1000-amount Food budget
for 2024-03, 850 of matching expense bills, and an active alert at
threshold 80. -/
def dbChk : DB :=
  { categories := [ { id := 3, userId := 1, name := "Food", ctype := "expense" } ],
    bills :=
      [ { id := 1, userId := 1, categoryId := 3, amount := 850,
          btype := "expense", date := ⟨2024, 3, 15⟩ } ],
    budgets :=
      [ { id := 1, userId := 1, categoryId := some 3, amount := 1000, month := ⟨2024, 3⟩ } ],
    alerts := [ { id := 1, userId := 1, budgetId := 1, threshold := 80, isActive := true } ]
  }

/-- Concrete state: user 1 holds an active alert whose parent budget row
belongs to user 2, so GetBudgets(1, 2024-03) does not contain it. -/
def dbOrph : DB :=
  { categories := [], bills := [],
    budgets :=
      [ { id := 1, userId := 2, categoryId := none, amount := 1000, month := ⟨2024, 3⟩ } ],
    alerts := [ { id := 1, userId := 1, budgetId := 1, threshold := 50, isActive := true } ]
  }

/-- Concrete two-tenant state: users 1 and 2 each own one budget and one
alert. -/
def dbIso : DB :=
  { categories := [], bills := [],
    budgets :=
      [ { id := 1, userId := 1, categoryId := none, amount := 100, month := ⟨2024, 3⟩ },
        { id := 2, userId := 2, categoryId := none, amount := 200, month := ⟨2024, 3⟩ } ],
    alerts :=
      [ { id := 1, userId := 1, budgetId := 1, threshold := 50, isActive := true },
        { id := 2, userId := 2, budgetId := 2, threshold := 60, isActive := true } ] }

/-- Concrete state: user 1 owns budget 1 which has one alert. -/
def dbDel : DB :=
  { categories := [], bills := [],
    budgets :=
      [ { id := 1, userId := 1, categoryId := none, amount := 100, month := ⟨2024, 3⟩ } ],
    alerts := [ { id := 1, userId := 1, budgetId := 1, threshold := 50, isActive := true } ]
  }

theorem find?_eq_some_of_unique {α : Type} {q : α → Bool} {l : List α} {a : α}
    (ha : a ∈ l) (hq : q a = true) (huniq : ∀ x ∈ l, q x = true → x = a) :
    l.find? q = some a := by
  induction l with
  | nil => cases ha
  | cons x xs ih =>
    by_cases hx : q x = true
    · have hxa : x = a := huniq x (List.mem_cons_self x xs) hx
      subst hxa
      exact List.find?_cons_of_pos xs hx
    · rw [List.find?_cons_of_neg xs (by simpa using hx)]
      rcases List.mem_cons.mp ha with h | h
      · exact absurd (h ▸ hq) hx
      · exact ih h (fun y hy hqy => huniq y (List.mem_cons_of_mem x hy) hqy)

theorem budgetEndDate_eq_lastDay (mo : Month) (h1 : 1 ≤ mo.mon) (h2 : mo.mon ≤ 12) :
    budgetEndDate mo = ⟨mo.year, mo.mon, daysInMonth mo.year mo.mon⟩ := by
  obtain ⟨y, m⟩ := mo
  simp only at h1 h2
  by_cases hm : m = 12
  · subst hm
    simp [budgetEndDate, nextMonth, monthStartDate, prevDay, daysInMonth]
  · have hlt : m + 1 ≤ 12 := by omega
    simp only [budgetEndDate, nextMonth, monthStartDate, prevDay, hm, if_false]
    have : ¬(1 : Nat) < 1 := by omega
    rw [if_neg this, if_pos (by omega : 1 < m + 1)]
    simp

theorem computeBudget_fields (db : DB) (userId : Nat) (br : BudgetRow) :
    (computeBudget db userId br).amount = br.amount ∧
    (computeBudget db userId br).usedAmount =
      usedAmountQuery db userId (br.categoryId.getD 0)
        (monthStartDate br.month) (budgetEndDate br.month) ∧
    (computeBudget db userId br).percentage =
      (if 0 < br.amount then
        usedAmountQuery db userId (br.categoryId.getD 0)
          (monthStartDate br.month) (budgetEndDate br.month) / br.amount * 100
      else 0) := by
  simp [computeBudget]

theorem getBudget_ok_iff (db : DB) (id userId : Nat) (b : Budget) :
    getBudget db id userId = .ok b ↔
      ∃ br, db.budgets.find? (fun r => r.id == id && r.userId == userId) = some br ∧
        b = computeBudget db userId br := by
  unfold getBudget
  cases h : db.budgets.find? (fun r => r.id == id && r.userId == userId) with
  | none => simp
  | some br => simp [eq_comm]

/-- Claim C1: for every budget returned by GetBudget or GetBudgets, if the
budget's Amount is strictly positive then Percentage equals
UsedAmount / Amount * 100, and if Amount is zero or negative then
Percentage equals 0. -/
theorem percentage_correct (db : DB) (id userId : Nat) (mo : Month) :
    (∀ b, getBudget db id userId = .ok b →
      (0 < b.amount → b.percentage = b.usedAmount / b.amount * 100) ∧
      (b.amount ≤ 0 → b.percentage = 0)) ∧
    (∀ b ∈ getBudgets db userId mo,
      (0 < b.amount → b.percentage = b.usedAmount / b.amount * 100) ∧
      (b.amount ≤ 0 → b.percentage = 0)) := by
  have key : ∀ br : BudgetRow,
      (0 < (computeBudget db userId br).amount →
        (computeBudget db userId br).percentage =
          (computeBudget db userId br).usedAmount / (computeBudget db userId br).amount * 100) ∧
      ((computeBudget db userId br).amount ≤ 0 →
        (computeBudget db userId br).percentage = 0) := by
    intro br
    obtain ⟨ha, hu, hp⟩ := computeBudget_fields db userId br
    constructor
    · intro hpos
      rw [ha] at hpos
      rw [hp, ha, hu, if_pos hpos]
    · intro hle
      rw [ha] at hle
      rw [hp, if_neg (not_lt.mpr hle)]
  constructor
  · intro b hok
    obtain ⟨br, _, hb⟩ := (getBudget_ok_iff db id userId b).mp hok
    exact hb ▸ key br
  · intro b hb
    unfold getBudgets at hb
    obtain ⟨br, _, hb⟩ := List.mem_map.mp hb
    exact hb ▸ key br

/-- Witness for C1 at a concrete state: budget 1 of user 1 in `dbChk` has
amount 1000, used amount 850 and percentage 85 = 850 / 1000 * 100. -/
theorem percentage_correct_applied :
    getBudget dbChk 1 1 =
      Except.ok { id := 1, userId := 1, categoryId := 3, amount := 1000,
                  month := ⟨2024, 3⟩, usedAmount := 850, percentage := 85 } ∧
    (85 : ℚ) = 850 / 1000 * 100 := by
  have hok : getBudget dbChk 1 1 =
      Except.ok { id := 1, userId := 1, categoryId := 3, amount := 1000,
                  month := ⟨2024, 3⟩, usedAmount := 850, percentage := 85 } := by
    norm_num [getBudget, dbChk, computeBudget, usedAmountQuery, monthStartDate,
      budgetEndDate, nextMonth, prevDay, daysInMonth, dateLeB, List.find?]
  refine ⟨hok, ?_⟩
  have := ((percentage_correct dbChk 1 1 ⟨2024, 3⟩).1 _ hok).1 (by norm_num)
  simpa using this

/-- Claim C3: the derived UsedAmount sums exactly the user's expense bills
dated within the inclusive range from the first to the last day of the
budget's month, restricted to the budget's category when category-scoped,
over all expense bills otherwise.  The hypothesis `hcat` excludes the junk
row value `some 0` (category primary keys are positive AUTO_INCREMENT
values), and `hm1`/`hm2` state that the stored month is a real calendar
month. -/
theorem usedAmount_matches_spec (db : DB) (id userId : Nat) (br : BudgetRow) (b : Budget)
    (hfind : db.budgets.find? (fun r => r.id == id && r.userId == userId) = some br)
    (hok : getBudget db id userId = .ok b)
    (hm1 : 1 ≤ br.month.mon) (hm2 : br.month.mon ≤ 12)
    (hcat : br.categoryId ≠ some 0) :
    b.usedAmount = specMonthExpenseSum db userId br := by
  obtain ⟨br2, hfind2, hb⟩ := (getBudget_ok_iff db id userId b).mp hok
  rw [hfind] at hfind2
  cases hfind2
  obtain ⟨-, hu, -⟩ := computeBudget_fields db userId br
  rw [hb, hu]
  unfold usedAmountQuery specMonthExpenseSum
  congr 1
  congr 1
  apply List.filter_congr
  intro bill _
  rw [budgetEndDate_eq_lastDay br.month hm1 hm2]
  cases hc : br.categoryId with
  | none => simp [monthStartDate, Option.getD]
  | some c =>
    have hc0 : 0 < c := by
      rcases Nat.eq_zero_or_pos c with h | h
      · exact absurd (h ▸ hc) hcat
      · exact h
    simp [monthStartDate, Option.getD, hc0]

/-- Witness for C3 at a concrete state: in `dbChk` the used amount of
budget 1 equals the spec-side sum over March 2024 Food expense bills. -/
theorem usedAmount_matches_spec_applied :
    (850 : ℚ) =
      specMonthExpenseSum dbChk 1
        { id := 1, userId := 1, categoryId := some 3, amount := 1000, month := ⟨2024, 3⟩ } := by
  have h := usedAmount_matches_spec dbChk 1 1
      { id := 1, userId := 1, categoryId := some 3, amount := 1000, month := ⟨2024, 3⟩ }
      { id := 1, userId := 1, categoryId := 3, amount := 1000,
        month := ⟨2024, 3⟩, usedAmount := 850, percentage := 85 }
      (by decide)
      (by norm_num [getBudget, dbChk, computeBudget, usedAmountQuery, monthStartDate,
        budgetEndDate, nextMonth, prevDay, daysInMonth, dateLeB, List.find?])
      (by decide) (by decide) (by decide)
  simpa using h

/-- Claim C4: DeleteBudget requires the budget to exist and belong to the
user, deletes the budget's alerts and the budget row in one transaction,
and on any storage error rolls back, leaving the database exactly as it
was (no partial completion). -/
theorem deleteBudget_atomic (db : DB) (id userId : Nat) (f1 f2 f3 : Bool) :
    (∀ e, (deleteBudget db id userId f1 f2 f3).1 = .error e →
      (deleteBudget db id userId f1 f2 f3).2 = db) ∧
    ((deleteBudget db id userId f1 f2 f3).1 = .ok () →
      (deleteBudget db id userId f1 f2 f3).2 =
        { db with
          alerts := db.alerts.filter (fun a => !(a.budgetId == id)),
          budgets := db.budgets.filter (fun b => !(b.id == id && b.userId == userId)) }) ∧
    (db.budgets.find? (fun b => b.id == id && b.userId == userId) = none →
      (deleteBudget db id userId f1 f2 f3).1 = .error (.notFound "预算不存在")) := by
  unfold deleteBudget getBudget
  cases h : db.budgets.find? (fun b => b.id == id && b.userId == userId) with
  | none => simp
  | some br =>
    cases f1 <;> cases f2 <;> cases f3 <;> simp

/-- Witness for C4 at a concrete state: when the alert deletion step fails
inside the transaction, the database is returned unchanged — budget 1 and
its alert both survive. -/
theorem deleteBudget_atomic_applied :
    (deleteBudget dbDel 1 1 true false false).2 = dbDel :=
  (deleteBudget_atomic dbDel 1 1 true false false).1
    (Err.db "Error deleting budget alerts") (by decide)

/-- Claim C5 (code bug): moving budget 1 of `dbSlot` (total budget of user
1 for 2024-03) to 2024-04 with the category unchanged succeeds, although
user 1 already has a total budget for 2024-04 — afterwards two budgets
occupy the (user 1, NULL, 2024-04) slot.  UpdateBudget skips the slot
check because only the month changed, and the MySQL unique key does not
apply to NULL categories. -/
theorem updateBudget_breaks_slot_invariant :
    exceptOkB (updateBudget dbSlot 1 1 reqSlot).1 = true ∧
    slotCount dbSlot 1 none ⟨2024, 4⟩ = 1 ∧
    slotCount (updateBudget dbSlot 1 1 reqSlot).2 1 none ⟨2024, 4⟩ = 2 := by
  decide

/-- Claim C8 (code bug): at `dbCat`, creating a budget for the nonexistent
category 7 propagates the raw `sql.ErrNoRows` persistence error (the
`SELECT EXISTS(...), type FROM categories WHERE id = ?` query yields no
rows) instead of the intended ValidationError, while the intended
ValidationErrors do fire for an income category (id 4) and for another
user's category (id 5); in all three cases no budget is created. -/
theorem createBudget_nonexistent_category_raw_error :
    (createBudget dbCat 1 ⟨7, 100, ⟨2024, 3⟩⟩).1 =
      .error (.db "sql: no rows in result set") ∧
    (createBudget dbCat 1 ⟨7, 100, ⟨2024, 3⟩⟩).2 = dbCat ∧
    (createBudget dbCat 1 ⟨4, 100, ⟨2024, 3⟩⟩).1 =
      .error (.validation "只能为支出分类设置预算") ∧
    (createBudget dbCat 1 ⟨4, 100, ⟨2024, 3⟩⟩).2 = dbCat ∧
    (createBudget dbCat 1 ⟨5, 100, ⟨2024, 3⟩⟩).1 =
      .error (.validation "分类不存在或不属于当前用户") ∧
    (createBudget dbCat 1 ⟨5, 100, ⟨2024, 3⟩⟩).2 = dbCat := by
  decide

theorem processAlert_alertId (db : DB) (userId : Nat) (cm : Month)
    (a : AlertRow) (r : TriggeredAlert)
    (h : processAlert db userId cm a = some r) : r.alertId = a.id := by
  unfold processAlert at h
  split at h
  · split at h
    · exact absurd h (by simp)
    · split at h
      · split at h
        · exact absurd h (by simp)
        · split at h
          · cases h; rfl
          · exact absurd h (by simp)
      · exact absurd h (by simp)
  · exact absurd h (by simp)

theorem exists_record_iff_processAlert (db : DB) (userId : Nat) (cm : Month)
    (a : AlertRow) (hA : a ∈ db.alerts)
    (hNodupA : (db.alerts.map (fun x => x.id)).Nodup) :
    (∃ r ∈ checkBudgetAlerts db userId cm, r.alertId = a.id) ↔
      ∃ r, processAlert db userId cm a = some r := by
  constructor
  · rintro ⟨r, hr, hid⟩
    obtain ⟨a2, ha2, hpa⟩ := List.mem_filterMap.mp hr
    have hid2 : a2.id = a.id := by
      rw [← processAlert_alertId db userId cm a2 r hpa, hid]
    have : a2 = a := List.inj_on_of_nodup_map hNodupA ha2 hA hid2
    exact ⟨r, this ▸ hpa⟩
  · rintro ⟨r, hpa⟩
    exact ⟨r, List.mem_filterMap.mpr ⟨a, hA, hpa⟩,
      processAlert_alertId db userId cm a r hpa⟩

theorem find?_getBudgets (db : DB) (userId : Nat) (cm : Month) (br : BudgetRow)
    (hmem : br ∈ db.budgets) (hu : br.userId = userId) (hm : br.month = cm)
    (hNodupB : (db.budgets.map (fun b => b.id)).Nodup) :
    (getBudgets db userId cm).find? (fun b => b.id == br.id) =
      some (computeBudget db userId br) := by
  unfold getBudgets
  rw [List.find?_map]
  have hpred : ((fun b : Budget => b.id == br.id) ∘ computeBudget db userId) =
      (fun r : BudgetRow => r.id == br.id) := by
    funext r
    rfl
  rw [hpred, find?_eq_some_of_unique (a := br)]
  · rfl
  · exact List.mem_filter.mpr ⟨hmem, by simp [hu, hm]⟩
  · simp
  · intro x hx hxid
    have hx2 := (List.mem_filter.mp hx).1
    exact List.inj_on_of_nodup_map hNodupB hx2 hmem (by simpa using hxid)

/-- Claim C2: for a user's active alert whose parent budget (owned by the
same user) lies in the current month, CheckBudgetAlerts emits a
triggered-alert record exactly when the parent budget's percentage is
greater than or equal to the alert's threshold (non-strict); alerts that
are inactive or whose budget lies in a different month are never
reported.  Primary-key uniqueness of the budgets and alerts tables is
carried as the `Nodup` hypotheses. -/
theorem checkAlerts_trigger_iff (db : DB) (userId : Nat) (cm : Month)
    (a : AlertRow) (br : BudgetRow)
    (hA : a ∈ db.alerts)
    (hU : a.userId = userId)
    (hBr : budgetRowFor db a.budgetId = some br)
    (hBru : br.userId = userId)
    (hNodupB : (db.budgets.map (fun b => b.id)).Nodup)
    (hNodupA : (db.alerts.map (fun x => x.id)).Nodup) :
    (a.isActive = true → br.month = cm →
      ((∃ r ∈ checkBudgetAlerts db userId cm, r.alertId = a.id) ↔
        (a.threshold : ℚ) ≤ (computeBudget db userId br).percentage)) ∧
    (a.isActive = false ∨ br.month ≠ cm →
      ¬∃ r ∈ checkBudgetAlerts db userId cm, r.alertId = a.id) := by
  have hbrid : br.id = a.budgetId := by
    have := List.find?_some hBr
    simpa using this
  have hbrmem : br ∈ db.budgets := List.mem_of_find?_eq_some hBr
  rw [exists_record_iff_processAlert db userId cm a hA hNodupA]
  constructor
  · intro hact hm
    have hfind := find?_getBudgets db userId cm br hbrmem hBru hm hNodupB
    unfold processAlert
    rw [hU, hact]
    simp only [beq_self_eq_true, Bool.and_true, if_pos rfl, hBr, if_pos hm,
      hbrid ▸ hfind]
    by_cases hth : (a.threshold : ℚ) ≤ (computeBudget db userId br).percentage
    · simp [hth]
    · simp [hth]
  · intro hneg
    unfold processAlert
    rcases hneg with hact | hm
    · rw [hU, hact]
      simp
    · rw [hU]
      rcases ha : a.isActive with _ | _
      · simp
      · simp only [beq_self_eq_true, Bool.and_true, if_pos rfl, hBr, if_neg hm]
        simp

/-- Witness for C2 at `dbChk`: the alert with threshold 80 on the
85-percent-used budget is reported. -/
theorem checkAlerts_trigger_iff_applied :
    ∃ r ∈ checkBudgetAlerts dbChk 1 ⟨2024, 3⟩, r.alertId = 1 := by
  have h := (checkAlerts_trigger_iff dbChk 1 ⟨2024, 3⟩
      { id := 1, userId := 1, budgetId := 1, threshold := 80, isActive := true }
      { id := 1, userId := 1, categoryId := some 3, amount := 1000, month := ⟨2024, 3⟩ }
      (by decide) rfl (by decide) rfl (by decide) (by decide)).1 rfl rfl
  refine h.mpr ?_
  norm_num [computeBudget, usedAmountQuery, dbChk, monthStartDate, budgetEndDate,
    nextMonth, prevDay, daysInMonth, dateLeB]

/-- Claim C9: an active current-month alert whose parent budget does not
appear among the budgets loaded by GetBudgets is skipped silently: it
contributes no triggered-alert record (and, `checkBudgetAlerts` being a
total function, it cannot make the operation fail). -/
theorem checkAlerts_orphan_skipped (db : DB) (userId : Nat) (cm : Month)
    (a : AlertRow) (br : BudgetRow)
    (hA : a ∈ db.alerts)
    (hU : a.userId = userId)
    (hAct : a.isActive = true)
    (hBr : budgetRowFor db a.budgetId = some br)
    (hMon : br.month = cm)
    (hNodupA : (db.alerts.map (fun x => x.id)).Nodup)
    (hnotin : (getBudgets db userId cm).find? (fun b => b.id == a.budgetId) = none) :
    ¬∃ r ∈ checkBudgetAlerts db userId cm, r.alertId = a.id := by
  rw [exists_record_iff_processAlert db userId cm a hA hNodupA]
  rintro ⟨r, hpa⟩
  unfold processAlert at hpa
  rw [hU, hAct] at hpa
  simp only [beq_self_eq_true, Bool.and_true, if_pos rfl, hBr, if_pos hMon,
    hnotin] at hpa
  simp at hpa

/-- Witness for C9 at `dbOrph`: user 1's active alert references a budget
row owned by user 2, which GetBudgets(user 1) does not load, so no record
for it is emitted. -/
theorem checkAlerts_orphan_skipped_applied :
    ¬∃ r ∈ checkBudgetAlerts dbOrph 1 ⟨2024, 3⟩, r.alertId = 1 :=
  checkAlerts_orphan_skipped dbOrph 1 ⟨2024, 3⟩
    { id := 1, userId := 1, budgetId := 1, threshold := 50, isActive := true }
    { id := 1, userId := 2, categoryId := none, amount := 1000, month := ⟨2024, 3⟩ }
    (by decide) rfl rfl (by decide) rfl (by decide) (by decide)

theorem getBudget_error_shape (db : DB) (id userId : Nat) (e : Err)
    (h : getBudget db id userId = .error e) : e = .notFound "预算不存在" := by
  unfold getBudget at h
  split at h
  · injection h with h2
    exact h2.symm
  · simp at h

/-- Counterexample to C6 as stated: at `dbSlot`, budget 1 is stored with
month 2024-03, the request keeps the category but changes the month to
2024-04, the target (user 1, NULL, 2024-04) slot is occupied — yet the
update succeeds instead of re-running the placement validation (which
would have failed with the conflict error). -/
theorem updateBudget_skips_month_validation_cex :
    budgetRowFor dbSlot 1 =
      some { id := 1, userId := 1, categoryId := none, amount := 1000, month := ⟨2024, 3⟩ } ∧
    reqSlot.month ≠ (⟨2024, 3⟩ : Month) ∧
    slotCount dbSlot 1 none reqSlot.month = 1 ∧
    exceptOkB (updateBudget dbSlot 1 1 reqSlot).1 = true := by
  decide

/-- Claim C6 (amended): UpdateBudget re-runs the placement validation only
when the requested category differs from the stored one; when the category
is unchanged the validation is skipped even if the month changed, and no
validation or conflict error can arise; when the category did change, an
occupied target slot (excluding the budget being updated) yields the
conflict error and leaves the database unchanged. -/
theorem updateBudget_validation_gate (db : DB) (id userId : Nat)
    (req : BudgetRequest) (b : Budget)
    (hok : getBudget db id userId = .ok b) :
    (b.categoryId = req.categoryId →
      ∀ m, (updateBudget db id userId req).1 ≠ .error (.conflict m) ∧
           (updateBudget db id userId req).1 ≠ .error (.validation m)) ∧
    (b.categoryId ≠ req.categoryId → req.categoryId = 0 →
      0 < db.budgets.countP (fun r =>
          r.userId == userId && decide (r.categoryId = (none : Option Nat)) &&
          decide (r.month = req.month) && r.id != id) →
      (updateBudget db id userId req).1 = .error (.conflict "当月已有总预算设置") ∧
      (updateBudget db id userId req).2 = db) ∧
    (b.categoryId ≠ req.categoryId → 0 < req.categoryId →
      checkCategoryForBudget db req.categoryId userId = .ok () →
      0 < db.budgets.countP (fun r =>
          r.userId == userId && decide (r.categoryId = some req.categoryId) &&
          decide (r.month = req.month) && r.id != id) →
      (updateBudget db id userId req).1 = .error (.conflict "该分类在当月已有预算设置") ∧
      (updateBudget db id userId req).2 = db) := by
  refine ⟨?_, ?_, ?_⟩
  · intro hsame m
    unfold updateBudget
    rw [hok]
    dsimp only
    rw [if_neg (not_not_intro hsame)]
    dsimp only
    constructor <;>
    · repeat' split
      all_goals try simp
      all_goals (rename_i e heq; rw [getBudget_error_shape _ _ _ e heq]; simp)
  · intro hdiff h0 hcount
    unfold updateBudget
    rw [hok]
    dsimp only
    rw [if_pos hdiff, if_neg (by omega : ¬0 < req.categoryId), if_pos hcount]
    exact ⟨rfl, rfl⟩
  · intro hdiff hpos hcat hcount
    unfold updateBudget
    rw [hok]
    dsimp only
    rw [if_pos hdiff, if_pos hpos, hcat]
    dsimp only
    rw [if_pos hcount]
    exact ⟨rfl, rfl⟩

/-- Witness for the amended C6 at `dbSlot`: the month-only update raises
no conflict error. -/
theorem updateBudget_validation_gate_applied :
    (updateBudget dbSlot 1 1 reqSlot).1 ≠ .error (.conflict "当月已有总预算设置") := by
  have hok : getBudget dbSlot 1 1 =
      Except.ok { id := 1, userId := 1, categoryId := 0, amount := 1000,
                  month := ⟨2024, 3⟩, usedAmount := 0, percentage := 0 } := by
    norm_num [getBudget, dbSlot, computeBudget, usedAmountQuery, monthStartDate,
      budgetEndDate, nextMonth, prevDay, daysInMonth, dateLeB, List.find?]
  exact ((updateBudget_validation_gate dbSlot 1 1 reqSlot _ hok).1 (by decide)
    "当月已有总预算设置").1

/-- Counterexample to C7 as stated: at `dbAlert`, creating an alert with
threshold 150 does fail with the ValidationError, but only after 2
persistence round-trips (the budget-ownership lookup and its bills-sum
query inside GetBudget) — not before any persistence call. -/
theorem createBudgetAlert_reads_before_validation_cex :
    (createBudgetAlert dbAlert 1 ⟨1, 150, true⟩).1 =
      .error (.validation "阈值必须在1-100之间") ∧
    (createBudgetAlert dbAlert 1 ⟨1, 150, true⟩).2.2 = 2 ∧
    (2 : Nat) ≠ 0 := by
  decide

/-- Claim C7 (amended): CreateBudgetAlert requires the budget to exist and
belong to the user (NotFound otherwise), the threshold to lie in 1..100
(ValidationError otherwise — raised after the budget-lookup persistence
reads but before any further persistence access, the database staying
unchanged), and no existing alert on the budget with the same threshold
(ConflictError otherwise). -/
theorem createBudgetAlert_checks (db : DB) (userId : Nat) (req : AlertRequest) :
    (db.budgets.find? (fun b => b.id == req.budgetId && b.userId == userId) = none →
      (createBudgetAlert db userId req).1 = .error (.notFound "预算不存在") ∧
      (createBudgetAlert db userId req).2.1 = db) ∧
    (∀ br, db.budgets.find? (fun b => b.id == req.budgetId && b.userId == userId) = some br →
      (req.threshold < 1 ∨ 100 < req.threshold) →
      (createBudgetAlert db userId req).1 = .error (.validation "阈值必须在1-100之间") ∧
      (createBudgetAlert db userId req).2.1 = db ∧
      (createBudgetAlert db userId req).2.2 = 2) ∧
    (∀ br, db.budgets.find? (fun b => b.id == req.budgetId && b.userId == userId) = some br →
      1 ≤ req.threshold → req.threshold ≤ 100 →
      0 < db.alerts.countP (fun a =>
          a.budgetId == req.budgetId && a.threshold == req.threshold) →
      (createBudgetAlert db userId req).1 = .error (.conflict "已存在相同阈值的告警") ∧
      (createBudgetAlert db userId req).2.1 = db) := by
  refine ⟨?_, ?_, ?_⟩
  · intro hnone
    unfold createBudgetAlert
    rw [hnone]
    exact ⟨rfl, rfl⟩
  · intro br hsome hout
    unfold createBudgetAlert
    rw [hsome]
    have : (req.threshold < 1 || 100 < req.threshold) = true := by
      rcases hout with h | h <;> simp [h]
    rw [if_pos this]
    exact ⟨rfl, rfl, rfl⟩
  · intro br hsome h1 h2 hcount
    unfold createBudgetAlert
    rw [hsome]
    rw [if_neg (by simp; omega), if_pos hcount]
    exact ⟨rfl, rfl⟩

/-- Witness for the amended C7 at `dbAlert`: threshold 150 on the existing
budget 1 yields the ValidationError with the database untouched after
exactly the two GetBudget reads. -/
theorem createBudgetAlert_checks_applied :
    (createBudgetAlert dbAlert 1 ⟨1, 150, true⟩).2.1 = dbAlert ∧
    (createBudgetAlert dbAlert 1 ⟨1, 150, true⟩).2.2 = 2 := by
  have h := (createBudgetAlert_checks dbAlert 1 ⟨1, 150, true⟩).2.1
    { id := 1, userId := 1, categoryId := none, amount := 1000, month := ⟨2024, 3⟩ }
    (by decide) (by decide)
  exact ⟨h.2.1, h.2.2⟩

theorem bandl {a b : Bool} (h : (a && b) = true) : a = true := by
  rcases a with _ | _ <;> simp_all

theorem bandr {a b : Bool} (h : (a && b) = true) : b = true := by
  rcases b with _ | _ <;> simp_all

theorem filter_map_fixed {α : Type} (l : List α) (g : α → α) (p : α → Bool)
    (hp : ∀ a, p (g a) = p a) (hfix : ∀ a, p a = true → g a = a) :
    (l.map g).filter p = l.filter p := by
  induction l with
  | nil => rfl
  | cons x xs ih =>
    by_cases hx : p x = true
    · simp only [List.map_cons, List.filter_cons, hp, hx, if_pos, hfix x hx, ih]
    · have hx2 : p x = false := by
        cases h : p x
        · rfl
        · exact absurd h hx
      simp only [List.map_cons, List.filter_cons, hp, hx2, Bool.false_eq_true,
        if_neg, ih, not_false_eq_true]

theorem filter_filter_of_imp {α : Type} (l : List α) (p q : α → Bool)
    (h : ∀ a ∈ l, p a = true → q a = true) :
    (l.filter q).filter p = l.filter p := by
  rw [List.filter_filter]
  apply List.filter_congr
  intro a ha
  by_cases hp : p a = true
  · simp [hp, h a ha hp]
  · have hp2 : p a = false := by
      cases hh : p a
      · rfl
      · exact absurd hh hp
    simp [hp2]

theorem processAlert_userId (db : DB) (userId : Nat) (cm : Month)
    (a : AlertRow) (r : TriggeredAlert)
    (h : processAlert db userId cm a = some r) : a.userId = userId := by
  unfold processAlert at h
  split at h
  · rename_i hcond
    simpa using bandl hcond
  · simp at h

theorem processAlert_budget (db : DB) (userId : Nat) (cm : Month)
    (a : AlertRow) (r : TriggeredAlert)
    (h : processAlert db userId cm a = some r) :
    ∃ mb ∈ getBudgets db userId cm, mb.id = r.budgetId := by
  unfold processAlert at h
  split at h
  · split at h
    · simp at h
    · split at h
      · split at h
        · simp at h
        · rename_i mb hfind
          split at h
          · cases h
            refine ⟨mb, List.mem_of_find?_eq_some hfind, ?_⟩
            simpa using List.find?_some hfind
          · simp at h
      · simp at h
  · simp at h

theorem createBudget_db_shape (db : DB) (u : Nat) (req : BudgetRequest) :
    (createBudget db u req).2 = db ∨
    ∃ row : BudgetRow,
      (createBudget db u req).2 = { db with budgets := db.budgets ++ [row] } ∧
      row.userId = u := by
  unfold createBudget
  dsimp only
  repeat' split
  all_goals first
  | (left; rfl)
  | (right; exact ⟨_, rfl, rfl⟩)

theorem updateBudget_db_shape (db : DB) (i u : Nat) (req : BudgetRequest) :
    (updateBudget db i u req).2 = db ∨
    (updateBudget db i u req).2 =
      { db with budgets := db.budgets.map (fun b =>
          if b.id == i && b.userId == u then
            { b with
              categoryId := if 0 < req.categoryId then some req.categoryId else none,
              amount := req.amount, month := req.month }
          else b) } := by
  unfold updateBudget
  dsimp only
  repeat' split
  all_goals first
  | (left; rfl)
  | (right; rfl)

theorem updateBudgetAlert_db_shape (db : DB) (i u : Nat) (req : AlertRequest) :
    (updateBudgetAlert db i u req).2 = db ∨
    (updateBudgetAlert db i u req).2 =
      { db with alerts := db.alerts.map (fun a =>
          if a.id == i && a.userId == u then
            { a with budgetId := req.budgetId, threshold := req.threshold,
                     isActive := req.isActive }
          else a) } := by
  unfold updateBudgetAlert
  dsimp only
  repeat' split
  all_goals first
  | (left; rfl)
  | (right; rfl)

/-- Claim C10: multi-tenant isolation.  Under database consistency
(unique primary keys; each alert owned by its budget's owner, which the
API maintains), every budget/alert operation run as user `u` returns only
records owned by `u`, and leaves the budgets and alerts of any other user
`v` unchanged. -/
theorem user_isolation (db : DB) (u v : Nat) (huv : u ≠ v) (hc : Consistent db) :
    (∀ i b, getBudget db i u = .ok b → b.userId = u) ∧
    (∀ mo b, b ∈ getBudgets db u mo → b.userId = u) ∧
    (∀ bid a, a ∈ getBudgetAlerts db u bid → a.userId = u) ∧
    (∀ mo r, r ∈ checkBudgetAlerts db u mo →
      (∃ a ∈ db.alerts, a.userId = u ∧ r.alertId = a.id) ∧
      (∃ mb ∈ getBudgets db u mo, mb.id = r.budgetId)) ∧
    (∀ req, budgetsOf (createBudget db u req).2 v = budgetsOf db v ∧
            alertsOf (createBudget db u req).2 v = alertsOf db v) ∧
    (∀ i req, budgetsOf (updateBudget db i u req).2 v = budgetsOf db v ∧
              alertsOf (updateBudget db i u req).2 v = alertsOf db v) ∧
    (∀ i f1 f2 f3, budgetsOf (deleteBudget db i u f1 f2 f3).2 v = budgetsOf db v ∧
                   alertsOf (deleteBudget db i u f1 f2 f3).2 v = alertsOf db v) ∧
    (∀ req, budgetsOf (createBudgetAlert db u req).2.1 v = budgetsOf db v ∧
            alertsOf (createBudgetAlert db u req).2.1 v = alertsOf db v) ∧
    (∀ i req, budgetsOf (updateBudgetAlert db i u req).2 v = budgetsOf db v ∧
              alertsOf (updateBudgetAlert db i u req).2 v = alertsOf db v ∧
              ∀ a, (updateBudgetAlert db i u req).1 = .ok a → a.userId = u) ∧
    (∀ i, budgetsOf (deleteBudgetAlert db i u).2 v = budgetsOf db v ∧
          alertsOf (deleteBudgetAlert db i u).2 v = alertsOf db v) := by
  obtain ⟨hnodupB, hnodupA, hown⟩ := hc
  have hneq : (u == v) = false := by
    simp [huv]
  refine ⟨?_, ?_, ?_, ?_, ?_, ?_, ?_, ?_, ?_, ?_⟩
  · intro i b hok
    obtain ⟨br, hfind, hb⟩ := (getBudget_ok_iff db i u b).mp hok
    have := List.find?_some hfind
    have hbr : br.userId = u := by
      simpa using bandr this
    rw [hb]
    exact hbr
  · intro mo b hb
    unfold getBudgets at hb
    obtain ⟨br, hbr, hb⟩ := List.mem_map.mp hb
    have := (List.mem_filter.mp hbr).2
    have hbru : br.userId = u := by
      simpa using bandl this
    rw [← hb]
    exact hbru
  · intro bid a ha
    unfold getBudgetAlerts at ha
    have := (List.mem_filter.mp ha).2
    simpa using bandl this
  · intro mo r hr
    obtain ⟨a, ha, hpa⟩ := List.mem_filterMap.mp hr
    exact ⟨⟨a, ha, processAlert_userId db u mo a r hpa,
            processAlert_alertId db u mo a r hpa⟩,
           processAlert_budget db u mo a r hpa⟩
  · intro req
    rcases createBudget_db_shape db u req with h | ⟨row, h, hrow⟩
    · rw [h]
      exact ⟨rfl, rfl⟩
    · rw [h]
      unfold budgetsOf alertsOf
      refine ⟨?_, rfl⟩
      simp only [List.filter_append]
      have : List.filter (fun b => b.userId == v) [row] = [] := by
        simp [List.filter, hrow, hneq]
      rw [this, List.append_nil]
  · intro i req
    rcases updateBudget_db_shape db i u req with h | h
    · rw [h]
      exact ⟨rfl, rfl⟩
    · rw [h]
      unfold budgetsOf alertsOf
      refine ⟨?_, rfl⟩
      apply filter_map_fixed
      · intro b
        split <;> rfl
      · intro b hb
        have hbu : (b.userId == u) = false := by
          have : b.userId = v := by simpa using hb
          simp [this, Ne.symm huv]
        simp [hbu]
  · intro i f1 f2 f3
    unfold deleteBudget
    split
    · exact ⟨rfl, rfl⟩
    · rename_i b hg
      split
      · exact ⟨rfl, rfl⟩
      · split
        · exact ⟨rfl, rfl⟩
        · split
          · exact ⟨rfl, rfl⟩
          · constructor
            · unfold budgetsOf
              apply filter_filter_of_imp
              intro x hx hxv
              have hxu : (x.userId == u) = false := by
                have : x.userId = v := by simpa using hxv
                simp [this, Ne.symm huv]
              simp [hxu]
            · unfold alertsOf
              apply filter_filter_of_imp
              intro a ha hav
              obtain ⟨br, hfind, hbeq⟩ := (getBudget_ok_iff db i u b).mp hg
              have hbrmem : br ∈ db.budgets := List.mem_of_find?_eq_some hfind
              have hfs := List.find?_some hfind
              have hbri : br.id = i := by
                simpa using bandl hfs
              have hbru : br.userId = u := by
                simpa using bandr hfs
              have hav2 : a.userId = v := by simpa using hav
              by_cases hbid : a.budgetId = i
              · exfalso
                have := hown a ha br hbrmem (hbri.trans hbid.symm)
                rw [hbru, hav2] at this
                exact huv this
              · simp [hbid]
  · intro req
    unfold createBudgetAlert
    cases hf : db.budgets.find? (fun b => b.id == req.budgetId && b.userId == u) with
    | none => exact ⟨rfl, rfl⟩
    | some br =>
      dsimp only
      split
      · exact ⟨rfl, rfl⟩
      · split
        · exact ⟨rfl, rfl⟩
        · unfold budgetsOf alertsOf
          refine ⟨rfl, ?_⟩
          simp only [List.filter_append]
          have : List.filter (fun a => a.userId == v)
              [({ id := nextAlertId db, userId := u, budgetId := req.budgetId,
                  threshold := req.threshold, isActive := req.isActive } : AlertRow)] = [] := by
            simp [List.filter, hneq]
          rw [this, List.append_nil]
  · intro i req
    have hstate : budgetsOf (updateBudgetAlert db i u req).2 v = budgetsOf db v ∧
        alertsOf (updateBudgetAlert db i u req).2 v = alertsOf db v := by
      rcases updateBudgetAlert_db_shape db i u req with h | h
      · rw [h]
        exact ⟨rfl, rfl⟩
      · rw [h]
        unfold budgetsOf alertsOf
        refine ⟨rfl, ?_⟩
        apply filter_map_fixed
        · intro a
          split <;> rfl
        · intro a ha
          have hau : (a.userId == u) = false := by
            have : a.userId = v := by simpa using ha
            simp [this, Ne.symm huv]
          simp [hau]
    refine ⟨hstate.1, hstate.2, ?_⟩
    intro a hok
    unfold updateBudgetAlert at hok
    split at hok
    · simp at hok
    · rename_i hexists
      split at hok
      · simp at hok
      · split at hok
        · simp at hok
        · split at hok
          · simp at hok
          · dsimp only at hok
            split at hok
            · simp at hok
            · rename_i a2 hfind
              have ha2 : a2 = a := by
                injection hok with h2
              subst ha2
              have hmem := List.mem_of_find?_eq_some hfind
              obtain ⟨a0, ha0, ha0g⟩ := List.mem_map.mp hmem
              have hany2 : db.alerts.any (fun x => x.id == i && x.userId == u) = true := by
                simpa using hexists
              obtain ⟨a1, ha1, hc1⟩ := List.any_eq_true.mp hany2
              have ha1i : a1.id = i := by
                simpa using bandl hc1
              have ha1u : a1.userId = u := by
                simpa using bandr hc1
              have hgid : ∀ x : AlertRow,
                  (if x.id == i && x.userId == u then
                    { x with budgetId := req.budgetId, threshold := req.threshold,
                             isActive := req.isActive }
                  else x).id = x.id := by
                intro x
                split <;> rfl
              have haid : a0.id = i := by
                have := List.find?_some hfind
                rw [← ha0g] at this
                have h3 : (if a0.id == i && a0.userId == u then
                    { a0 with budgetId := req.budgetId, threshold := req.threshold,
                              isActive := req.isActive }
                  else a0).id = a0.id := hgid a0
                simp only [h3] at this
                simpa using this
              have ha01 : a0 = a1 :=
                List.inj_on_of_nodup_map hnodupA ha0 ha1 (haid.trans ha1i.symm)
              have ha0u : a0.userId = u := ha01 ▸ ha1u
              rw [← ha0g]
              split
              · exact ha0u
              · exact ha0u
  · intro i
    unfold deleteBudgetAlert
    split
    · exact ⟨rfl, rfl⟩
    · unfold budgetsOf alertsOf
      refine ⟨rfl, ?_⟩
      apply filter_filter_of_imp
      intro a ha hav
      have hau : (a.userId == u) = false := by
        have : a.userId = v := by simpa using hav
        simp [this, Ne.symm huv]
      simp [hau]

/-- Witness for C10 at the two-tenant state `dbIso`: deleting user 1's
budget leaves user 2's budgets untouched. -/
theorem user_isolation_applied :
    budgetsOf (deleteBudget dbIso 1 1 false false false).2 2 = budgetsOf dbIso 2 :=
  ((user_isolation dbIso 1 2 (by decide) (by decide)).2.2.2.2.2.2.1
    1 false false false).1

end FinWise
